import Mathlib

/-!
Verification of the hyve packer builder core against its specification.

The Go sources embedded here are:
 - builder/hyve/step_type_boot_command.go  (serial typist: ttySendString, ttySendKey)
 - builder/hyve/driver.go                  (HyveDriver: Hyve, WaitForShutdown, Version)
 - builder/hyve/step_run.go               (Builder.Run terminal outcomes, artifact assembly)

Go strings are modelled at the decoded-character level (`List Char`): the
boot-command scanner decodes one rune at a time with utf8.DecodeRuneInString
and all directive literals are ASCII, so byte-level prefix matching and
character-level prefix matching coincide on well-formed input.
-/

namespace Hyve

/-- Observable effects of the serial typist: sleeps (in milliseconds) and
single-byte writes to the COM1 serial device. -/
inductive TTYEvent where
  | sleepMs (ms : Nat)
  | writeByte (b : Nat)
  deriving DecidableEq, Repr

/-- Character-level model of Go strings.HasPrefix. -/
def hasPre : List Char → List Char → Bool
  | [], _ => true
  | _ :: _, [] => false
  | p :: ps, c :: cs => p == c && hasPre ps cs

theorem hasPre_le : ∀ (p s : List Char), hasPre p s = true → p.length ≤ s.length
  | [], _, _ => Nat.zero_le _
  | _ :: _, [], h => by simp [hasPre] at h
  | _ :: ps, _ :: cs, h => by
    simp only [hasPre, Bool.and_eq_true] at h
    have := hasPre_le ps cs h.2
    simpa using this

theorem hasPre_append : ∀ (p t : List Char), hasPre p (p ++ t) = true
  | [], _ => rfl
  | c :: p, t => by simp [hasPre, hasPre_append p t]

/-- The literal text of the directive special code given as "&lt;wait&gt;". -/
def waitLit : List Char := ['<', 'w', 'a', 'i', 't', '>']

/-- The literal text of the directive special code given as "&lt;wait5&gt;". -/
def wait5Lit : List Char := ['<', 'w', 'a', 'i', 't', '5', '>']

/-- The literal text of the directive special code given as "&lt;wait10&gt;". -/
def wait10Lit : List Char := ['<', 'w', 'a', 'i', 't', '1', '0', '>']

/-- Model of ttySendKey: one com1.Write of a single byte.  The external serial
device is modelled by a script `errs` that gives the result of the idx-th
write performed on it (`none` = success).  The pair returned mirrors Go's
`(n, err)` shape: the write event that occurred, and the error value. -/
def ttySendKey (errs : Nat → Option String) (idx : Nat) (key : Nat) :
    List TTYEvent × Option String :=
  ([TTYEvent.writeByte key], errs idx)

/-- Model of ttySendString from step_type_boot_command.go.  Scans the string
left to right; checks the three wait directives in source order, each of which
sleeps and advances past its literal text with a `continue`; otherwise decodes
one character, sends `byte(r)` via ttySendKey — whose error result is bound
and then discarded, exactly as in the source, which ignores the return value
of ttySendKey — and then sleeps 100ms.  Returns the trace of effects; like
the Go function, it returns no error value. -/
def ttySendString (errs : Nat → Option String) (idx : Nat) (s : List Char) :
    List TTYEvent :=
  if h1 : hasPre waitLit s then
    TTYEvent.sleepMs 1000 :: ttySendString errs idx (s.drop waitLit.length)
  else if h2 : hasPre wait5Lit s then
    TTYEvent.sleepMs 5000 :: ttySendString errs idx (s.drop wait5Lit.length)
  else if h3 : hasPre wait10Lit s then
    TTYEvent.sleepMs 10000 :: ttySendString errs idx (s.drop wait10Lit.length)
  else
    match s with
    | [] => []
    | r :: rest =>
      let key := r.toNat % 256
      let sent := ttySendKey errs idx key
      sent.1 ++ TTYEvent.sleepMs 100 :: ttySendString errs (idx + 1) rest
termination_by s.length
decreasing_by
  · have hle := hasPre_le waitLit s h1
    simp only [waitLit, List.length_cons, List.length_nil] at hle
    simp only [List.length_drop, waitLit, List.length_cons, List.length_nil]
    omega
  · have hle := hasPre_le wait5Lit s h2
    simp only [wait5Lit, List.length_cons, List.length_nil] at hle
    simp only [List.length_drop, wait5Lit, List.length_cons, List.length_nil]
    omega
  · have hle := hasPre_le wait10Lit s h3
    simp only [wait10Lit, List.length_cons, List.length_nil] at hle
    simp only [List.length_drop, wait10Lit, List.length_cons, List.length_nil]
    omega
  · simp

/-- Is this event the fixed 100ms settling sleep? -/
def isSettle : TTYEvent → Bool
  | TTYEvent.sleepMs ms => ms == 100
  | _ => false

/-- Is this event a serial byte write? -/
def isWrite : TTYEvent → Bool
  | TTYEvent.writeByte _ => true
  | _ => false

/-- Number of 100ms settling sleeps in a typist trace. -/
def countSleep100 (t : List TTYEvent) : Nat :=
  t.countP isSettle

/-- Number of serial byte writes in a typist trace. -/
def countWrites (t : List TTYEvent) : Nat :=
  t.countP isWrite

/-- A serial device whose every write fails. -/
def failingDev : Nat → Option String := fun _ => some "write error"

theorem tts_nil (errs : Nat → Option String) (idx : Nat) :
    ttySendString errs idx [] = [] := by
  rw [ttySendString]
  rw [dif_neg (by decide), dif_neg (by decide), dif_neg (by decide)]

theorem tts_wait_of (errs : Nat → Option String) (idx : Nat) (s : List Char)
    (h1 : hasPre waitLit s = true) :
    ttySendString errs idx s = TTYEvent.sleepMs 1000 :: ttySendString errs idx (s.drop 6) := by
  rw [ttySendString]
  rw [dif_pos h1]
  simp [waitLit]

theorem tts_wait5_of (errs : Nat → Option String) (idx : Nat) (s : List Char)
    (h1 : hasPre waitLit s = false) (h2 : hasPre wait5Lit s = true) :
    ttySendString errs idx s = TTYEvent.sleepMs 5000 :: ttySendString errs idx (s.drop 7) := by
  rw [ttySendString]
  rw [dif_neg (by simp [h1]), dif_pos h2]
  simp [wait5Lit]

theorem tts_wait10_of (errs : Nat → Option String) (idx : Nat) (s : List Char)
    (h1 : hasPre waitLit s = false) (h2 : hasPre wait5Lit s = false)
    (h3 : hasPre wait10Lit s = true) :
    ttySendString errs idx s = TTYEvent.sleepMs 10000 :: ttySendString errs idx (s.drop 8) := by
  rw [ttySendString]
  rw [dif_neg (by simp [h1]), dif_neg (by simp [h2]), dif_pos h3]
  simp [wait10Lit]

theorem tts_char_of (errs : Nat → Option String) (idx : Nat) (r : Char) (rest : List Char)
    (h1 : hasPre waitLit (r :: rest) = false) (h2 : hasPre wait5Lit (r :: rest) = false)
    (h3 : hasPre wait10Lit (r :: rest) = false) :
    ttySendString errs idx (r :: rest) =
      TTYEvent.writeByte (r.toNat % 256) :: TTYEvent.sleepMs 100 ::
        ttySendString errs (idx + 1) rest := by
  rw [ttySendString]
  rw [dif_neg (by simp [h1]), dif_neg (by simp [h2]), dif_neg (by simp [h3])]
  simp [ttySendKey]

/-- Claim C5: an input beginning with one of the directives (checked in the
source's priority order) makes the typist sleep the directive's stated
duration (1s, 5s, 10s, recorded in milliseconds), advance the scan position
by exactly the directive's literal text length, and perform zero serial
writes for that directive. -/
theorem wait_directive_step (errs : Nat → Option String) (idx : Nat) (rest : List Char) :
    ttySendString errs idx (waitLit ++ rest) =
      TTYEvent.sleepMs 1000 :: ttySendString errs idx rest ∧
    ttySendString errs idx (wait5Lit ++ rest) =
      TTYEvent.sleepMs 5000 :: ttySendString errs idx rest ∧
    ttySendString errs idx (wait10Lit ++ rest) =
      TTYEvent.sleepMs 10000 :: ttySendString errs idx rest := by
  refine ⟨?_, ?_, ?_⟩
  · rw [tts_wait_of errs idx _ (hasPre_append waitLit rest)]
    simp [waitLit]
  · rw [tts_wait5_of errs idx _ (by simp [hasPre, waitLit, wait5Lit])
      (hasPre_append wait5Lit rest)]
    simp [wait5Lit]
  · rw [tts_wait10_of errs idx _ (by simp [hasPre, waitLit, wait10Lit])
      (by simp [hasPre, wait5Lit, wait10Lit]) (hasPre_append wait10Lit rest)]
    simp [wait10Lit]

/-- Claim C10: a literal (non-directive) character is sent as exactly one
byte, whose value is the character's Unicode code point reduced modulo 256
(Go's byte(r) conversion), followed by the 100ms settling sleep. -/
theorem literal_char_step (errs : Nat → Option String) (idx : Nat) (r : Char) (rest : List Char)
    (h1 : hasPre waitLit (r :: rest) = false)
    (h2 : hasPre wait5Lit (r :: rest) = false)
    (h3 : hasPre wait10Lit (r :: rest) = false) :
    ttySendString errs idx (r :: rest) =
      TTYEvent.writeByte (r.toNat % 256) :: TTYEvent.sleepMs 100 ::
        ttySendString errs (idx + 1) rest :=
  tts_char_of errs idx r rest h1 h2 h3

/-- Witness for literal_char_step at the character U+0101 (code point 257):
no directive matches, and the single byte written is 257 % 256 = 1 — the
code point is silently truncated to one byte. -/
theorem literal_char_step_witness :
    hasPre waitLit [Char.ofNat 257] = false ∧
    hasPre wait5Lit [Char.ofNat 257] = false ∧
    hasPre wait10Lit [Char.ofNat 257] = false ∧
    ttySendString (fun _ => none) 0 [Char.ofNat 257] =
      [TTYEvent.writeByte 1, TTYEvent.sleepMs 100] := by
  refine ⟨by decide, by decide, by decide, ?_⟩
  rw [literal_char_step (fun _ => none) 0 (Char.ofNat 257) []
    (by decide) (by decide) (by decide)]
  rw [tts_nil]
  decide

/-- Counterexample to claim C4: processing the single directive unit 1s-wait
produces only its one-second sleep — the loop continues without the 100ms
settling sleep, so the trace does not contain one 100ms sleep per unit. -/
theorem directive_skips_settling_sleep :
    ttySendString (fun _ => none) 0 waitLit = [TTYEvent.sleepMs 1000] ∧
    countSleep100 (ttySendString (fun _ => none) 0 waitLit) = 0 := by
  have hw : ttySendString (fun _ => none) 0 waitLit = [TTYEvent.sleepMs 1000] := by
    rw [tts_wait_of _ _ _ (by decide)]
    norm_num [waitLit, tts_nil]
  exact ⟨hw, by rw [hw]; rfl⟩

/-- Claim C4 as amended: the typist sleeps the fixed 100ms settling delay
exactly once per literal character (one settling sleep per serial write);
wait directives perform only their own sleep and skip the settling delay. -/
theorem settling_sleep_per_write (errs : Nat → Option String) (idx : Nat) (s : List Char) :
    countSleep100 (ttySendString errs idx s) = countWrites (ttySendString errs idx s) := by
  induction idx, s using ttySendString.induct errs with
  | case1 idx s h1 ih =>
    rw [tts_wait_of errs idx s h1]
    simp only [waitLit, List.length_cons, List.length_nil] at ih
    simp [countSleep100, countWrites, List.countP_cons, isSettle, isWrite] at ih ⊢
    exact ih
  | case2 idx s h1 h2 ih =>
    rw [tts_wait5_of errs idx s (by simpa using h1) h2]
    simp only [wait5Lit, List.length_cons, List.length_nil] at ih
    simp [countSleep100, countWrites, List.countP_cons, isSettle, isWrite] at ih ⊢
    exact ih
  | case3 idx s h1 h2 h3 ih =>
    rw [tts_wait10_of errs idx s (by simpa using h1) (by simpa using h2) h3]
    simp only [wait10Lit, List.length_cons, List.length_nil] at ih
    simp [countSleep100, countWrites, List.countP_cons, isSettle, isWrite] at ih ⊢
    exact ih
  | case4 idx _ _ _ _ _ _ =>
    rw [tts_nil]
    rfl
  | case5 idx r rest h1 h2 h3 _ _ _ ih =>
    rw [tts_char_of errs idx r rest (by simpa using h1) (by simpa using h2) (by simpa using h3)]
    simp [countSleep100, countWrites, List.countP_cons, isSettle, isWrite] at ih ⊢
    omega

/-- Counterexample to claim C3: with a device whose very first write fails,
the typist still writes the second byte and finishes the sequence — a write
error does not abort the remaining sequence, and ttySendString surfaces no
error to its caller (like the Go function, it returns nothing). -/
theorem write_error_does_not_abort :
    (ttySendKey failingDev 0 97).2 = some "write error" ∧
    ttySendString failingDev 0 ['a', 'b'] =
      [TTYEvent.writeByte 97, TTYEvent.sleepMs 100,
       TTYEvent.writeByte 98, TTYEvent.sleepMs 100] := by
  refine ⟨rfl, ?_⟩
  rw [tts_char_of failingDev 0 'a' ['b'] (by decide) (by decide) (by decide)]
  rw [tts_char_of failingDev 1 'b' [] (by decide) (by decide) (by decide)]
  rw [tts_nil]
  decide

/-- Claim C3 as amended: the result of every device write is discarded by
the typist — its behaviour (the full effect trace) is identical under any
two device error scripts, so a write error neither aborts the remaining
sequence nor reaches the caller. -/
theorem typist_ignores_device_results (e1 e2 : Nat → Option String) (idx : Nat)
    (s : List Char) : ttySendString e1 idx s = ttySendString e2 idx s := by
  induction idx, s using ttySendString.induct e1 with
  | case1 idx s h1 ih =>
    rw [tts_wait_of e1 idx s h1, tts_wait_of e2 idx s h1]
    simp only [waitLit, List.length_cons, List.length_nil] at ih
    rw [ih]
  | case2 idx s h1 h2 ih =>
    rw [tts_wait5_of e1 idx s (by simpa using h1) h2,
      tts_wait5_of e2 idx s (by simpa using h1) h2]
    simp only [wait5Lit, List.length_cons, List.length_nil] at ih
    rw [ih]
  | case3 idx s h1 h2 h3 ih =>
    rw [tts_wait10_of e1 idx s (by simpa using h1) (by simpa using h2) h3,
      tts_wait10_of e2 idx s (by simpa using h1) (by simpa using h2) h3]
    simp only [wait10Lit, List.length_cons, List.length_nil] at ih
    rw [ih]
  | case4 idx _ _ _ _ _ _ =>
    rw [tts_nil, tts_nil]
  | case5 idx r rest h1 h2 h3 _ _ _ ih =>
    rw [tts_char_of e1 idx r rest (by simpa using h1) (by simpa using h2) (by simpa using h3),
      tts_char_of e2 idx r rest (by simpa using h1) (by simpa using h2) (by simpa using h3)]
    rw [ih]

/-- State of a HyveDriver from driver.go.  The exec.Cmd process handle and the
one-shot completion channel are abstracted by opaque numeric identifiers;
`none` models the Go nil.  The mutex is implicit: Hyve, Stop and the
completion watcher each run their handle updates under it, so the embedded
operations act atomically on this state. -/
structure HyveDriver where
  HyvePath : String
  QemuImgPath : String
  vmCmd : Option Nat
  vmEndCh : Option Nat
  tty : String
  deriving DecidableEq, Repr

/-- Outcome of the select race in Hyve between the completion channel and the
2-second grace timer: either the completion signal fires first, carrying the
computed exit code, or the timer fires first. -/
inductive RaceOutcome where
  | completionFirst (exitCode : Int)
  | timerFirst
  deriving DecidableEq, Repr

/-- External nondeterminism of one Hyve (Launch) invocation after the
already-running check: pty.Start may fail, the first-line read may fail, or
the subprocess is spawned with a given first output line and race outcome. -/
inductive LaunchEnv where
  | ptyStartErr (msg : String)
  | readLineErr (msg : String)
  | spawned (firstLine : String) (race : RaceOutcome)
  deriving DecidableEq, Repr

/-- How one Hyve invocation terminates: a Go panic, an error return, or a nil
return. -/
inductive HyveOutcome where
  | panicked (msg : String)
  | errored (msg : String)
  | ok
  deriving DecidableEq, Repr

/-- Literal part of the TTY-discovery pattern COM1 connected to
(/dev/ttys[0-9]+) from driver.go. -/
def com1Lit : List Char := "COM1 connected to /dev/ttys".toList

/-- Try to match the TTY-discovery regular expression at the head of s,
returning the captured group /dev/ttys[0-9]+ (greedy digit run). -/
def matchCom1At (s : List Char) : Option String :=
  if hasPre com1Lit s then
    let ds := (s.drop com1Lit.length).takeWhile Char.isDigit
    if ds.isEmpty then none
    else some (String.mk ("/dev/ttys".toList ++ ds))
  else none

/-- Leftmost match of the TTY-discovery regular expression in the first
output line, as regexp.FindStringSubmatch does. -/
def findCom1 : List Char → Option String
  | [] => none
  | c :: t =>
    match matchCom1At (c :: t) with
    | some r => some r
    | none => findCom1 t

/-- Model of HyveDriver.Hyve (Launch) from driver.go.  Under the lock: panics
if a VM handle already exists; otherwise spawns the subprocess (pty.Start),
reads the first output line to discover the COM1 tty (a failed pattern match
leaves tty unchanged), then races the completion channel against the 2-second
timer: if the completion signal arrives first with a non-zero exit code an
error is returned and no handle is recorded; in every other case the handle
and completion channel are recorded as live and nil is returned.  cmdH and
chH are the identities of the freshly created process handle and completion
channel. -/
def hyve (d : HyveDriver) (env : LaunchEnv) (cmdH chH : Nat) :
    HyveDriver × HyveOutcome :=
  match d.vmCmd with
  | some _ => (d, HyveOutcome.panicked "Existing VM state found")
  | none =>
    match env with
    | LaunchEnv.ptyStartErr m => (d, HyveOutcome.errored ("Error starting VM: " ++ m))
    | LaunchEnv.readLineErr m => (d, HyveOutcome.errored m)
    | LaunchEnv.spawned firstLine race =>
      let d1 :=
        match findCom1 firstLine.toList with
        | some t => { d with tty := t }
        | none => d
      match race with
      | RaceOutcome.completionFirst exitCode =>
        if exitCode ≠ 0 then
          (d1, HyveOutcome.errored
            "bhyve/xhyve failed to start. Please run with logs to get more info.")
        else
          ({ d1 with vmCmd := some cmdH, vmEndCh := some chH }, HyveOutcome.ok)
      | RaceOutcome.timerFirst =>
        ({ d1 with vmCmd := some cmdH, vmEndCh := some chH }, HyveOutcome.ok)

/-- Which of WaitForShutdown's two select branches fires when both channels
are live: the completion channel or the cancel channel. -/
inductive WaitEnv where
  | endFirst
  | cancelFirst
  deriving DecidableEq, Repr

/-- Model of HyveDriver.WaitForShutdown from driver.go: reads vmEndCh under
the lock; if it is nil, returns true at once; otherwise blocks on the select
between the completion channel (true) and the caller's cancel channel
(false), decided by the environment. -/
def waitForShutdown (d : HyveDriver) (env : WaitEnv) : Bool :=
  match d.vmEndCh with
  | none => true
  | some _ =>
    match env with
    | WaitEnv.endFirst => true
    | WaitEnv.cancelFirst => false

/-- A freshly constructed driver: no live process handle, no completion
channel, no discovered tty. -/
def freshDriver : HyveDriver :=
  { HyvePath := "xhyve", QemuImgPath := "qemu-img",
    vmCmd := none, vmEndCh := none, tty := "" }

/-- A driver currently holding a live VM handle and completion channel. -/
def busyDriver : HyveDriver :=
  { HyvePath := "xhyve", QemuImgPath := "qemu-img",
    vmCmd := some 7, vmEndCh := some 8, tty := "/dev/ttys003" }

/-- Counterexample to claim C1: when the supervised process exits within the
grace window with exit code 0, the completion signal fires first and yet
Hyve records the handle as live and returns nil — not an error. -/
theorem completion_first_zero_exit :
    (hyve freshDriver (LaunchEnv.spawned "" (RaceOutcome.completionFirst 0)) 1 2).2 =
      HyveOutcome.ok ∧
    (hyve freshDriver (LaunchEnv.spawned "" (RaceOutcome.completionFirst 0)) 1 2).1.vmCmd =
      some 1 := by
  decide

/-- Claim C1 as amended: after spawning, the launch result is decided by the
race between the completion signal and the grace timer — completion first
with a non-zero exit code yields an error and leaves no live handle;
completion first with exit code 0, or the timer firing first, records the
handle and completion channel as live and returns nil. -/
theorem launch_race_outcomes (d : HyveDriver) (h : d.vmCmd = none) (line : String)
    (ec : Int) (cmdH chH : Nat) :
    (ec ≠ 0 →
      (hyve d (LaunchEnv.spawned line (RaceOutcome.completionFirst ec)) cmdH chH).2 =
        HyveOutcome.errored
          "bhyve/xhyve failed to start. Please run with logs to get more info." ∧
      (hyve d (LaunchEnv.spawned line (RaceOutcome.completionFirst ec)) cmdH chH).1.vmCmd =
        none ∧
      (hyve d (LaunchEnv.spawned line (RaceOutcome.completionFirst ec)) cmdH chH).1.vmEndCh =
        d.vmEndCh) ∧
    (ec = 0 →
      (hyve d (LaunchEnv.spawned line (RaceOutcome.completionFirst ec)) cmdH chH).1.vmCmd =
        some cmdH ∧
      (hyve d (LaunchEnv.spawned line (RaceOutcome.completionFirst ec)) cmdH chH).1.vmEndCh =
        some chH ∧
      (hyve d (LaunchEnv.spawned line (RaceOutcome.completionFirst ec)) cmdH chH).2 =
        HyveOutcome.ok) ∧
    ((hyve d (LaunchEnv.spawned line RaceOutcome.timerFirst) cmdH chH).1.vmCmd = some cmdH ∧
      (hyve d (LaunchEnv.spawned line RaceOutcome.timerFirst) cmdH chH).1.vmEndCh = some chH ∧
      (hyve d (LaunchEnv.spawned line RaceOutcome.timerFirst) cmdH chH).2 = HyveOutcome.ok) := by
  cases hf : findCom1 line.data with
  | none =>
    refine ⟨fun hne => ?_, fun he => ?_, ?_⟩
    · simp [hyve, h, hf, hne]
    · simp [hyve, h, hf, he]
    · simp [hyve, h, hf]
  | some t =>
    refine ⟨fun hne => ?_, fun he => ?_, ?_⟩
    · simp [hyve, h, hf, hne]
    · simp [hyve, h, hf, he]
    · simp [hyve, h, hf]

/-- Witness for launch_race_outcomes: a fresh driver whose process exits with
code 3 inside the grace window gets the launch-failed error. -/
theorem launch_race_outcomes_witness :
    freshDriver.vmCmd = none ∧
    (hyve freshDriver (LaunchEnv.spawned "" (RaceOutcome.completionFirst 3)) 1 2).2 =
      HyveOutcome.errored
        "bhyve/xhyve failed to start. Please run with logs to get more info." :=
  ⟨rfl, ((launch_race_outcomes freshDriver rfl "" 3 1 2).1 (by decide)).1⟩

/-- Claim C2: calling Hyve (Launch) while a live handle is held panics with
the invariant-violation message and leaves the driver state — including the
live handle and completion channel — completely unchanged. -/
theorem double_launch_panics (d : HyveDriver) (c0 : Nat) (h : d.vmCmd = some c0)
    (env : LaunchEnv) (cmdH chH : Nat) :
    hyve d env cmdH chH = (d, HyveOutcome.panicked "Existing VM state found") := by
  simp [hyve, h]

/-- Witness for double_launch_panics: a driver holding handle 7 panics on a
second launch and keeps its state. -/
theorem double_launch_panics_witness :
    busyDriver.vmCmd = some 7 ∧
    hyve busyDriver (LaunchEnv.spawned "" RaceOutcome.timerFirst) 1 2 =
      (busyDriver, HyveOutcome.panicked "Existing VM state found") :=
  ⟨rfl, double_launch_panics busyDriver 7 rfl (LaunchEnv.spawned "" RaceOutcome.timerFirst) 1 2⟩

/-- Claim C9: when no completion channel is held, WaitForShutdown returns
true immediately, whatever the cancel channel would have done — the select
between the two channels is never reached. -/
theorem wait_no_channel_returns_true (d : HyveDriver) (h : d.vmEndCh = none)
    (env : WaitEnv) : waitForShutdown d env = true := by
  simp [waitForShutdown, h]

/-- Witness for wait_no_channel_returns_true: a fresh driver returns true
even when the cancel channel is the one ready to fire. -/
theorem wait_no_channel_returns_true_witness :
    freshDriver.vmEndCh = none ∧
    waitForShutdown freshDriver WaitEnv.cancelFirst = true :=
  ⟨rfl, wait_no_channel_returns_true freshDriver rfl WaitEnv.cancelFirst⟩

/-- Literal tail of the version pattern [bx]hyve: X.Y.Z after its first
character class. -/
def hyveColonLit : List Char := "hyve: ".toList

/-- Greedy run of ASCII digits, as [0-9]+ matches. -/
def takeDigits (s : List Char) : List Char := s.takeWhile Char.isDigit

/-- Length of the match of the version regular expression
[bx]hyve: [0-9]+\.[0-9]+\.[0-9]+ at the head of s, if it matches there. -/
def versionMatchAt (s : List Char) : Option Nat :=
  match s with
  | [] => none
  | c :: r0 =>
    if (c == 'b' || c == 'x') && hasPre hyveColonLit r0 then
      let r1 := r0.drop hyveColonLit.length
      let d1 := takeDigits r1
      if d1.isEmpty then none
      else
        match r1.drop d1.length with
        | '.' :: r3 =>
          let d2 := takeDigits r3
          if d2.isEmpty then none
          else
            match r3.drop d2.length with
            | '.' :: r5 =>
              let d3 := takeDigits r5
              if d3.isEmpty then none
              else some (1 + hyveColonLit.length + d1.length + 1 + d2.length + 1 + d3.length)
            | _ => none
        | _ => none
    else none

/-- Leftmost match (start position, length) of the version regular
expression in s. -/
def findVersionMatch : List Char → Option (Nat × Nat)
  | [] => none
  | c :: t =>
    match versionMatchAt (c :: t) with
    | some len => some (0, len)
    | none => (findVersionMatch t).map fun p => (p.1 + 1, p.2)

/-- Go regexp Split with limit 2 for the version pattern: the pieces of s
around the first match, or the whole of s when there is no match.  The
result always has at least one element. -/
def versionSplit2 (s : List Char) : List (List Char) :=
  match findVersionMatch s with
  | none => [s]
  | some (i, len) => [s.take i, s.drop (i + len)]

/-- Whitespace in the sense of Go's unicode.IsSpace (the characters relevant
to strings.TrimSpace). -/
def goIsSpace (c : Char) : Bool :=
  c == ' ' || c == '\t' || c == '\n' || c == '\u000B' || c == '\u000C' ||
    c == '\r' || c == '\u0085' || c == '\u00A0'

/-- Model of strings.TrimSpace: drop leading and trailing whitespace. -/
def trimSpace (s : List Char) : List Char :=
  ((s.dropWhile goIsSpace).reverse.dropWhile goIsSpace).reverse

/-- Model of HyveDriver.Version from driver.go as a function of the stdout
produced by the hypervisor binary run with -v: trims the output, applies the
version regular expression's Split with limit 2, returns the descriptive
error if the resulting slice is empty, and otherwise returns the slice's
first element. -/
def version (stdout : String) : Except String String :=
  let versionOutput := trimSpace stdout.toList
  match versionSplit2 versionOutput with
  | [] => Except.error ("No version found: " ++ String.mk versionOutput)
  | m0 :: _ => Except.ok (String.mk m0)

/-- The split around the version pattern is never empty, so Version's
no-version-found error branch is unreachable for every input. -/
theorem version_never_errors (stdout : String) (e : String) :
    version stdout ≠ Except.error e := by
  unfold version versionSplit2
  cases hf : findVersionMatch (trimSpace stdout.data) with
  | none => simp [hf]
  | some p => cases p with | mk i len => simp [hf]

/-- Behaviour of Version in claim C6's terms: on a well-formed version
output it returns the text before the pattern match — the empty string — and
on output with no match it returns the whole (trimmed) output; in neither
case does it return the descriptive error the claim requires. -/
theorem version_code_eval :
    version "xhyve: 1.2.3" = Except.ok "" ∧
    version "no version here" = Except.ok "no version here" := by
  constructor <;> rfl

/-- A metadata value attached to an artifact: Go string or uint64. -/
inductive MetaVal where
  | str (s : String)
  | u64 (n : Nat)
  deriving DecidableEq, Repr

/-- The hyve Artifact: output directory, the file paths under it, and the
metadata mapping set by Builder.Run. -/
structure BuildArtifact where
  dir : String
  f : List String
  state : List (String × MetaVal)
  deriving DecidableEq, Repr

/-- The configuration fields Builder.Run's tail reads. -/
structure RunConfig where
  OutputDir : String
  Format : String
  DiskSize : Nat
  deriving DecidableEq, Repr

/-- The multistep state-bag keys Builder.Run's tail reads after the runner
finishes: the recorded error (if any), the cancellation and halt flags, and
the disk_filename produced by the create-disk step. -/
structure PipeState where
  errorKey : Option String
  cancelled : Bool
  halted : Bool
  diskFilename : String
  deriving DecidableEq, Repr

/-- A node of the output directory tree walked by filepath.Walk. -/
inductive FSEntry where
  | file (name : String)
  | dir (name : String) (children : List FSEntry)

mutual
/-- Paths appended by Builder.Run's visit callback while walking one entry:
a file contributes its own path, a directory contributes nothing for itself
(info.IsDir() is true) and recurses into its children. -/
def walkEntry (base : String) : FSEntry → List String
  | FSEntry.file n => [base ++ "/" ++ n]
  | FSEntry.dir n cs => walkEntries (base ++ "/" ++ n) cs

/-- Paths appended while walking a list of directory entries in order. -/
def walkEntries (base : String) : List FSEntry → List String
  | [] => []
  | e :: es => walkEntry base e ++ walkEntries base es
end

mutual
/-- Number of non-directory files in one entry. -/
def fileCount : FSEntry → Nat
  | FSEntry.file _ => 1
  | FSEntry.dir _ cs => fileCountList cs

/-- Number of non-directory files in a list of entries. -/
def fileCountList : List FSEntry → Nat
  | [] => 0
  | e :: es => fileCount e + fileCountList es
end

mutual
theorem walkEntry_length (base : String) (e : FSEntry) :
    (walkEntry base e).length = fileCount e := by
  cases e with
  | file n => simp [walkEntry, fileCount]
  | dir n cs => simp [walkEntry, fileCount, walkEntries_length]

theorem walkEntries_length (base : String) (es : List FSEntry) :
    (walkEntries base es).length = fileCountList es := by
  cases es with
  | nil => simp [walkEntries, fileCountList]
  | cons e es => simp [walkEntries, fileCountList, walkEntry_length, walkEntries_length]
end

/-- Model of the tail of Builder.Run (step_run.go) after the step runner has
returned: first a recorded error is surfaced, then cancellation, then halt;
otherwise the output directory walk result (the non-directory file paths
collected by the visit callback, or the walk's error) is consulted and, on
success, the artifact is assembled with metadata keys diskName (the state's
disk_filename), diskFormat (the configured format) and diskSize (the
configured disk size converted to uint64). -/
def builderRunFinish (cfg : RunConfig) (st : PipeState)
    (walk : Except String (List String)) : Except String BuildArtifact :=
  match st.errorKey with
  | some e => Except.error e
  | none =>
    if st.cancelled then Except.error "Build was cancelled."
    else if st.halted then Except.error "Build was halted."
    else
      match walk with
      | Except.error e => Except.error e
      | Except.ok files =>
        Except.ok
          { dir := cfg.OutputDir, f := files,
            state := [("diskName", MetaVal.str st.diskFilename),
                      ("diskFormat", MetaVal.str cfg.Format),
                      ("diskSize", MetaVal.u64 cfg.DiskSize)] }

/-- A sample configuration for concrete evaluations. -/
def cfg0 : RunConfig := { OutputDir := "output-foo", Format := "raw", DiskSize := 40000 }

/-- Counterexample to claim C7: Builder.Run has more than the three claimed
terminal outcomes.  A halt flag with no recorded error yields a fourth
result, the distinct "Build was halted." error; and even a clean pipeline
yields no artifact when the output-directory walk fails, surfacing the walk
error instead. -/
theorem run_has_more_outcomes :
    builderRunFinish cfg0
        { errorKey := none, cancelled := false, halted := true, diskFilename := "disk.img" }
        (Except.ok []) = Except.error "Build was halted." ∧
    "Build was halted." ≠ "Build was cancelled." ∧
    builderRunFinish cfg0
        { errorKey := none, cancelled := false, halted := false, diskFilename := "disk.img" }
        (Except.error "open output-foo: permission denied") =
      Except.error "open output-foo: permission denied" := by
  refine ⟨rfl, by decide, rfl⟩

/-- Claim C7 as amended: Builder.Run's terminal outcomes in priority order —
a recorded step error is surfaced first; otherwise cancellation gives the
"Build was cancelled." error; otherwise a halt gives the "Build was halted."
error; otherwise a failed output-directory walk surfaces the walk error; and
only a clean pipeline with a successful walk returns the artifact with nil
error. -/
theorem run_terminal_outcomes (cfg : RunConfig) (st : PipeState)
    (walk : Except String (List String)) :
    (∀ e, st.errorKey = some e → builderRunFinish cfg st walk = Except.error e) ∧
    (st.errorKey = none → st.cancelled = true →
      builderRunFinish cfg st walk = Except.error "Build was cancelled.") ∧
    (st.errorKey = none → st.cancelled = false → st.halted = true →
      builderRunFinish cfg st walk = Except.error "Build was halted.") ∧
    (∀ e, st.errorKey = none → st.cancelled = false → st.halted = false →
      walk = Except.error e → builderRunFinish cfg st walk = Except.error e) ∧
    (∀ fs, st.errorKey = none → st.cancelled = false → st.halted = false →
      walk = Except.ok fs →
      builderRunFinish cfg st walk =
        Except.ok
          { dir := cfg.OutputDir, f := fs,
            state := [("diskName", MetaVal.str st.diskFilename),
                      ("diskFormat", MetaVal.str cfg.Format),
                      ("diskSize", MetaVal.u64 cfg.DiskSize)] }) := by
  refine ⟨?_, ?_, ?_, ?_, ?_⟩
  · intro e he
    simp [builderRunFinish, he]
  · intro he hc
    simp [builderRunFinish, he, hc]
  · intro he hc hh
    simp [builderRunFinish, he, hc, hh]
  · intro e he hc hh hw
    simp [builderRunFinish, he, hc, hh, hw]
  · intro fs he hc hh hw
    simp [builderRunFinish, he, hc, hh, hw]

/-- Witness for run_terminal_outcomes: the cancellation arm at a concrete
state. -/
theorem run_terminal_outcomes_witness :
    builderRunFinish cfg0
        { errorKey := none, cancelled := true, halted := false, diskFilename := "d" }
        (Except.ok []) = Except.error "Build was cancelled." :=
  (run_terminal_outcomes cfg0
      { errorKey := none, cancelled := true, halted := false, diskFilename := "d" }
      (Except.ok [])).2.1 rfl rfl

/-- Claim C8: after a clean pipeline run, the artifact's file set is exactly
the non-directory files collected by recursively walking the output
directory (one path per file, no directory entries), and its metadata is
exactly diskName, diskFormat and diskSize.  The third conjunct is the spec's
example: files a and b/c give exactly the two file paths. -/
theorem artifact_assembly (cfg : RunConfig) (diskFile : String) (entries : List FSEntry) :
    builderRunFinish cfg
        { errorKey := none, cancelled := false, halted := false, diskFilename := diskFile }
        (Except.ok (walkEntries cfg.OutputDir entries)) =
      Except.ok
        { dir := cfg.OutputDir, f := walkEntries cfg.OutputDir entries,
          state := [("diskName", MetaVal.str diskFile),
                    ("diskFormat", MetaVal.str cfg.Format),
                    ("diskSize", MetaVal.u64 cfg.DiskSize)] } ∧
    (walkEntries cfg.OutputDir entries).length = fileCountList entries ∧
    walkEntries "out" [FSEntry.file "a", FSEntry.dir "b" [FSEntry.file "c"]] =
      ["out/a", "out/b/c"] := by
  refine ⟨rfl, walkEntries_length cfg.OutputDir entries, ?_⟩
  simp [walkEntries, walkEntry]

end Hyve
